import Mathlib

/-!
Shallow embedding of the SSO handler of the jackson repository
(src/npm/src/controller/sso-handler.ts) together with proofs of the
frozen claims about it.

Modelling conventions:
- Optional TypeScript values (string fields that may be undefined) are
  modelled as Option String; a truthiness test in the source becomes the
  function truthy below, so that a present-but-empty string is falsy, as
  in TypeScript.
- Plain JavaScript records of strings (Record of string to string) are
  modelled as association lists, with objGet for property access, objSet
  for property assignment, and objSpread for the object spread that
  merges a record into an object literal (later keys overwrite earlier
  values in place, as JS object spread does).
- External collaborators (the connection store getByIndex, the key
  derivation keyFromParts from db/utils, the certificate provider, the
  saml toolkit request builder, deflateRaw, base64 encoding, the OIDC
  issuer and URL builders, and the random session identifier) are passed
  in as explicit arguments; the embedded functions record exactly the
  arguments the source hands to them.
- Awaited promises are modelled as plain values; the session store is an
  explicit association list threaded through the functions that write it.
-/

/-- Truthiness of an optional TypeScript string: undefined and the empty
string are falsy, every other string is truthy. -/
def truthy : Option String → Bool
  | none => false
  | some s => !(s == "")

/-- Error type of controller/error: a message together with an HTTP
status code. -/
structure JacksonError where
  message : String
  statusCode : Nat
deriving DecidableEq, Repr

/-- Index names used with the connection store, from controller/utils. -/
inductive IndexNames where
  | TenantProduct
  | EntityID
deriving DecidableEq, Repr

/-- The sso part of the IdP metadata of a SAML connection; a some value
models a present key, so that the in-operator tests of the source become
isSome tests here. -/
structure SsoEndpoints where
  redirectUrl : Option String
  postUrl : Option String
deriving DecidableEq, Repr

structure IdpMetadata where
  sso : SsoEndpoints
deriving DecidableEq, Repr

/-- The fields of a SAMLSSORecord that the handler reads. -/
structure SAMLSSORecord where
  clientID : String
  idpMetadata : IdpMetadata
  forceAuthn : Option Bool
  identifierFormat : Option String
deriving DecidableEq, Repr

/-- The fields of the oidcProvider part of an OIDCSSORecord that the
handler reads. -/
structure OidcProvider where
  discoveryUrl : Option String
  metadata : Option String
  clientId : Option String
  clientSecret : String
deriving DecidableEq, Repr

/-- The fields of an OIDCSSORecord that the handler reads. -/
structure OIDCSSORecord where
  clientID : String
  oidcProvider : OidcProvider
deriving DecidableEq, Repr

/-- A stored connection is either a SAML or an OIDC connection record. -/
inductive Connection where
  | saml (r : SAMLSSORecord)
  | oidc (r : OIDCSSORecord)
deriving DecidableEq, Repr

/-- The clientID property, shared by both connection variants. -/
def Connection.clientID : Connection → String
  | .saml r => r.clientID
  | .oidc r => r.clientID

/-- The configuration fields of JacksonOption that the handler reads. -/
structure JacksonOption where
  externalUrl : String
  idpDiscoveryPath : String
  samlPath : String
  samlAudience : String
  oidcPath : Option String
deriving DecidableEq, Repr

/-- A JavaScript record of strings, as an association list in key order. -/
abbrev ReqCtx := List (String × String)

/-- Property read on a record: the value at the first matching key. -/
def objGet (o : ReqCtx) (k : String) : Option String :=
  (o.find? (fun p => p.1 == k)).map (fun p => p.2)

/-- Property write on a record: overwrite the value in place when the key
exists, append the pair otherwise, as a JS object-literal key does. -/
def objSet (o : ReqCtx) (k v : String) : ReqCtx :=
  if o.any (fun p => p.1 == k) then
    o.map (fun p => if p.1 == k then (k, v) else p)
  else
    o ++ [(k, v)]

/-- Object spread: merge the record extra into the record base, later
entries overwriting earlier values in place. -/
def objSpread (base extra : ReqCtx) : ReqCtx :=
  extra.foldl (fun acc p => objSet acc p.1 p.2) base

/-- The authFlow parameter of resolveConnection. -/
inductive AuthFlow where
  | oauth
  | saml
  | idpInitiated
deriving DecidableEq, Repr

/-- The string form of an authFlow value as it appears in the source. -/
def AuthFlow.toStr : AuthFlow → String
  | .oauth => "oauth"
  | .saml => "saml"
  | .idpInitiated => "idp-initiated"

/-- Structural image of a URL built from a base string and query
parameters; the stringification done by URL and URLSearchParams is the
platform library and is kept symbolic here. -/
structure UrlWithParams where
  base : String
  params : ReqCtx
deriving DecidableEq, Repr

/-- Structural image of the auto-submit form returned by the
createPostForm toolkit call in the idp-initiated branch: the discovery
path, its query parameters, and the hidden fields (a none value models a
JS undefined field value). -/
structure ResolvePostForm where
  actionPath : String
  actionQuery : ReqCtx
  fields : List (String × Option String)
deriving DecidableEq, Repr

/-- The tagged result of resolveConnection. -/
inductive ResolutionResult where
  | connection (c : Connection)
  | redirectUrl (u : UrlWithParams)
  | postForm (f : ResolvePostForm)
deriving DecidableEq, Repr

/-- The parameter object of resolveConnection. -/
structure ResolveConnectionParams where
  authFlow : AuthFlow
  originalParams : ReqCtx
  tenant : Option String
  product : Option String
  entityId : Option String
  idp_hint : Option String
  samlFedAppId : Option String
deriving DecidableEq, Repr

/-- The error message shared by every NotFound failure of
resolveConnection. -/
def noSSOConnectionErrMessage : String := "No SSO connection found."

/-- The object literal of defaults that the sp-initiated branch spreads
the original parameters into. -/
def spInitiatedDefaults (p : ResolveConnectionParams) : ReqCtx :=
  [("tenant", p.tenant.getD ""), ("product", p.product.getD ""),
   ("authFlow", "sp-initiated"), ("samlFedAppId", p.samlFedAppId.getD "")]

/-- The lookup phase of resolveConnection: the connections variable after
the two conditional getByIndex calls; none models the initial null that
no lookup replaced. -/
def resolvedConnections (keyFromParts : String → String → String)
    (getByIndex : IndexNames → String → List Connection)
    (p : ResolveConnectionParams) : Option (List Connection) :=
  let c1 : Option (List Connection) :=
    if truthy p.tenant && truthy p.product then
      some (getByIndex IndexNames.TenantProduct
        (keyFromParts (p.tenant.getD "") (p.product.getD "")))
    else none
  if truthy p.entityId then
    some (getByIndex IndexNames.EntityID (p.entityId.getD ""))
  else c1

/-- The phase of resolveConnection after the lookups: emptiness check,
idp hint filtering, multi-connection disambiguation, single-connection
return. -/
def afterLookup (opts : JacksonOption) (p : ResolveConnectionParams)
    (connections : Option (List Connection)) :
    Except JacksonError ResolutionResult :=
  match connections with
  | none => .error ⟨noSSOConnectionErrMessage, 404⟩
  | some [] => .error ⟨noSSOConnectionErrMessage, 404⟩
  | some (c0 :: rest) =>
    if truthy p.idp_hint then
      match (c0 :: rest).find? (fun c => c.clientID == p.idp_hint.getD "") with
      | none => .error ⟨noSSOConnectionErrMessage, 404⟩
      | some c => .ok (.connection c)
    else if (c0 :: rest).length > 1 then
      if (p.authFlow == AuthFlow.oauth || p.authFlow == AuthFlow.saml)
          && (truthy p.tenant && truthy p.product) then
        .ok (.redirectUrl
          { base := opts.externalUrl ++ opts.idpDiscoveryPath
            params := objSpread (spInitiatedDefaults p) p.originalParams })
      else if p.authFlow == AuthFlow.idpInitiated && truthy p.entityId then
        .ok (.postForm
          { actionPath := opts.idpDiscoveryPath
            actionQuery := [("entityId", p.entityId.getD ""),
                            ("authFlow", p.authFlow.toStr)]
            fields := [("SAMLResponse", objGet p.originalParams "SAMLResponse")] })
      else .ok (.connection c0)
    else .ok (.connection c0)

/-- resolveConnection of SSOHandler: the lookup phase followed by the
post-lookup phase. -/
def resolveConnection (opts : JacksonOption)
    (keyFromParts : String → String → String)
    (getByIndex : IndexNames → String → List Connection)
    (p : ResolveConnectionParams) : Except JacksonError ResolutionResult :=
  afterLookup opts p (resolvedConnections keyFromParts getByIndex p)

/-- A session record as built by createSession: id is the request
identifier, requested the caller context, and the two OIDC fields are
present only when the corresponding arguments were truthy. -/
structure Session where
  id : String
  requested : ReqCtx
  samlFederated : Bool
  oidcCodeVerifier : Option String
  oidcNonce : Option String
deriving DecidableEq, Repr

/-- The injected key-value session store, newest entry first. -/
abbrev SessionStore := List (String × Session)

/-- The put operation of the session store. -/
def storePut (store : SessionStore) (key : String) (value : Session) :
    SessionStore :=
  (key, value) :: store

/-- The get operation of the session store. -/
def storeGet (store : SessionStore) (key : String) : Option Session :=
  (store.find? (fun p => p.1 == key)).map (fun p => p.2)

/-- Modelled from the spec: the constant relayStatePrefix lives in
controller/utils, which is not under src; section 4.4 of the spec says the
returned token is a fixed prefix concatenated with the random identifier.
The concrete value is immaterial to every claim. -/
def relayStatePrefix : String := "boxyhq_jackson_"

/-- createSession of SSOHandler: sessionId stands for the hex string of
the sixteen random bytes drawn by the source; the function returns the
updated store together with the relay state token. -/
def createSession (store : SessionStore) (sessionId : String)
    (requestId : String) (requested : ReqCtx)
    (oidcCodeVerifier oidcNonce : Option String) : SessionStore × String :=
  let session : Session :=
    { id := requestId
      requested := requested
      samlFederated := true
      oidcCodeVerifier := if truthy oidcCodeVerifier then oidcCodeVerifier else none
      oidcNonce := if truthy oidcNonce then oidcNonce else none }
  (storePut store sessionId session, relayStatePrefix ++ sessionId)

/-- A signing key pair from the certificate provider. -/
structure Certificate where
  privateKey : String
  publicKey : String
deriving DecidableEq, Repr

/-- The argument object the source passes to the saml toolkit request
builder. -/
structure SamlRequestParams where
  ssoUrl : Option String
  entityID : String
  callbackUrl : String
  signingKey : String
  publicKey : String
  forceAuthn : Bool
  identifierFormat : String
deriving DecidableEq, Repr

/-- The value the saml toolkit request builder returns: the generated
request identifier and the request body. -/
structure SamlRequestOut where
  id : String
  request : String
deriving DecidableEq, Repr

/-- Structural image of the redirect.success call of
controller/oauth/redirect, which is not under src. Modelled from the
spec: section 4.2 step 5 says the redirect binding produces a redirect URL
carrying the given query parameters; the structure records the
destination URL (possibly undefined) and those parameters. -/
structure RedirectSuccess where
  url : Option String
  params : ReqCtx
deriving DecidableEq, Repr

/-- Structural image of the auto-submit form returned by the
createPostForm toolkit call with a destination URL and hidden fields; a
none value models a JS undefined. -/
structure SamlPostForm where
  url : Option String
  fields : List (String × Option String)
deriving DecidableEq, Repr

/-- The result object of createSAMLRequest. -/
structure SAMLRequestResult where
  redirect_url : Option RedirectSuccess
  authorize_form : Option SamlPostForm
deriving DecidableEq, Repr

/-- The endpoint selection of createSAMLRequest: the redirectUrl key is
tested first, then the postUrl key; the boolean records whether the POST
binding was chosen, and when neither key is present the destination is
left undefined with the redirect binding. -/
def chooseSsoEndpoint (sso : SsoEndpoints) : Option String × Bool :=
  if sso.redirectUrl.isSome then (sso.redirectUrl, false)
  else if sso.postUrl.isSome then (sso.postUrl, true)
  else (none, false)

/-- The argument object createSAMLRequest hands to the saml toolkit
request builder, given the selected destination. -/
def samlRequestArgsOf (opts : JacksonOption) (certificate : Certificate)
    (connection : SAMLSSORecord) (ssoUrl : Option String) :
    SamlRequestParams :=
  { ssoUrl := ssoUrl
    entityID := opts.samlAudience
    callbackUrl := opts.externalUrl ++ opts.samlPath
    signingKey := certificate.privateKey
    publicKey := certificate.publicKey
    forceAuthn := connection.forceAuthn.getD false
    identifierFormat :=
      if truthy connection.identifierFormat then
        connection.identifierFormat.getD ""
      else "urn:oasis:names:tc:SAML:1.1:nameid-format:emailAddress" }

/-- createSAMLRequest of SSOHandler. The collaborators are explicit:
samlRequestBuilder is the saml toolkit request call, deflateRaw the zlib
raw deflate, base64 the Buffer base64 encoding, sessionId the random
session identifier; the function returns the updated session store and
the result object. -/
def createSAMLRequest (opts : JacksonOption) (certificate : Certificate)
    (samlRequestBuilder : SamlRequestParams → SamlRequestOut)
    (deflateRaw : String → String) (base64 : String → String)
    (store : SessionStore) (sessionId : String)
    (connection : SAMLSSORecord) (requestParams : ReqCtx) :
    SessionStore × SAMLRequestResult :=
  let choice := chooseSsoEndpoint connection.idpMetadata.sso
  let ssoUrl := choice.1
  let post := choice.2
  let samlRequest := samlRequestBuilder
    (samlRequestArgsOf opts certificate connection ssoUrl)
  let stRelay := createSession store sessionId samlRequest.id
    (objSet requestParams "client_id" connection.clientID) none none
  let relayState := stRelay.2
  if !post then
    (stRelay.1,
     { redirect_url := some
         { url := ssoUrl
           params := [("RelayState", relayState),
                      ("SAMLRequest", base64 (deflateRaw samlRequest.request))] }
       authorize_form := none })
  else
    (stRelay.1,
     { redirect_url := none
       authorize_form := some
         { url := ssoUrl
           fields := [("RelayState", some relayState),
                      ("SAMLRequest", some (base64 samlRequest.request))] } })

/-- The argument object createOIDCRequest hands to the authorization URL
builder of the OIDC client. -/
structure AuthorizationUrlParams where
  scope : String
  code_challenge : String
  code_challenge_method : String
  state : String
  nonce : String
deriving DecidableEq, Repr

/-- The result object of createOIDCRequest. -/
structure OIDCRequestResult where
  redirect_url : String
deriving DecidableEq, Repr

/-- createOIDCRequest of SSOHandler. oidcIssuerResult stands for the
awaited oidcIssuerInstance call together with the client construction
(an error models any exception they throw, caught by the try block);
codeVerifierGen and nonceGen are the generated PKCE verifier and nonce,
sessionId the random session identifier, codeChallengeOf the S256
challenge derivation, and authorizationUrlOf the URL builder of the
constructed client. Returns the updated session store and the result. -/
def createOIDCRequest (opts : JacksonOption)
    (oidcIssuerResult : Except String Unit)
    (codeVerifierGen nonceGen sessionId : String)
    (codeChallengeOf : String → String)
    (authorizationUrlOf : AuthorizationUrlParams → String)
    (store : SessionStore)
    (connection : OIDCSSORecord) (requestParams : ReqCtx) :
    SessionStore × Except JacksonError OIDCRequestResult :=
  if !(truthy opts.oidcPath) then
    (store, .error ⟨"OpenID response handler path (oidcPath) is not set", 400⟩)
  else
    match oidcIssuerResult with
    | .error msg =>
      (store, .error ⟨"Unable to complete OIDC request. - " ++ msg, 400⟩)
    | .ok _ =>
      let stRelay := createSession store sessionId connection.clientID
        requestParams (some codeVerifierGen) (some nonceGen)
      (stRelay.1, .ok
        { redirect_url := authorizationUrlOf
            { scope := "openid email profile"
              code_challenge := codeChallengeOf codeVerifierGen
              code_challenge_method := "S256"
              state := stRelay.2
              nonce := nonceGen } })

/-- Errors as thrown values: either a JacksonError of the handler or any
other exception raised by a collaborator. -/
inductive SSOError where
  | jackson (e : JacksonError)
  | raw (msg : String)
deriving DecidableEq, Repr

/-- The argument object the handler passes to the saml library response
builder, the certificate spread into it. -/
structure SAMLResponseParams where
  audience : Option String
  acsUrl : Option String
  requestId : Option String
  issuer : String
  profile : String
  privateKey : String
  publicKey : String
deriving DecidableEq, Repr

/-- The argument object createSAMLResponse builds for the saml library
response builder from the recovered session and the profile. -/
def samlResponseArgsOf (opts : JacksonOption) (certificate : Certificate)
    (profile : String) (session : Session) : SAMLResponseParams :=
  { audience := objGet session.requested "entityId"
    acsUrl := objGet session.requested "acsUrl"
    requestId := objGet session.requested "id"
    issuer := opts.samlAudience
    profile := profile
    privateKey := certificate.privateKey
    publicKey := certificate.publicKey }

/-- createSAMLResponse of SSOHandler. getDefaultCertificate is awaited
outside the try block, so its failure propagates as thrown; every failure
of the library response builder inside the try block is replaced by the
fixed JacksonError with status 403. -/
def createSAMLResponse (opts : JacksonOption)
    (getDefaultCertificate : Except SSOError Certificate)
    (samlLibCreateResponse : SAMLResponseParams → Except SSOError String)
    (base64 : String → String)
    (profile : String) (session : Session) :
    Except SSOError SamlPostForm :=
  match getDefaultCertificate with
  | .error e => .error e
  | .ok certificate =>
    match samlLibCreateResponse
        (samlResponseArgsOf opts certificate profile session) with
    | .error _ => .error (.jackson ⟨"Unable to validate SAML Response.", 403⟩)
    | .ok responseSigned =>
      .ok { url := objGet session.requested "acsUrl"
            fields := [("RelayState", objGet session.requested "relayState"),
                       ("SAMLResponse", some (base64 responseSigned))] }

/-! Helper lemmas about record access, assignment, spread and the
session store. -/

theorem objGet_nil (k : String) : objGet [] k = none := rfl

theorem objGet_cons (p : String × String) (rest : ReqCtx) (k : String) :
    objGet (p :: rest) k = if p.1 == k then some p.2 else objGet rest k := by
  by_cases h : p.1 == k <;> simp [objGet, List.find?, h]

theorem objGet_eq_none_of_any_false (o : ReqCtx) (k : String)
    (h : o.any (fun p => p.1 == k) = false) : objGet o k = none := by
  induction o with
  | nil => rfl
  | cons q rest ih =>
    simp only [List.any_cons, Bool.or_eq_false_iff] at h
    rw [objGet_cons, h.1, if_neg (by simp)]
    exact ih h.2

theorem objGet_append_of_none (a b : ReqCtx) (k : String)
    (h : objGet a k = none) : objGet (a ++ b) k = objGet b k := by
  induction a with
  | nil => rfl
  | cons q rest ih =>
    rw [objGet_cons] at h
    by_cases hq : q.1 == k
    · rw [if_pos hq] at h; exact absurd h (by simp)
    · rw [List.cons_append, objGet_cons, if_neg (by simp [hq])]
      rw [if_neg (by simp [hq])] at h
      exact ih h

theorem objGet_append_of_some (a b : ReqCtx) (k : String) (v : String)
    (h : objGet a k = some v) : objGet (a ++ b) k = some v := by
  induction a with
  | nil => exact absurd h (by simp [objGet_nil])
  | cons q rest ih =>
    rw [objGet_cons] at h
    by_cases hq : q.1 == k
    · rw [List.cons_append, objGet_cons, if_pos hq]
      rw [if_pos hq] at h; exact h
    · rw [List.cons_append, objGet_cons, if_neg (by simp [hq])]
      rw [if_neg (by simp [hq])] at h
      exact ih h

theorem objGet_map_set_self (o : ReqCtx) (k v : String)
    (h : o.any (fun p => p.1 == k) = true) :
    objGet (o.map (fun p => if p.1 == k then (k, v) else p)) k = some v := by
  induction o with
  | nil => simp at h
  | cons q rest ih =>
    by_cases hq : q.1 == k
    · simp only [List.map_cons, if_pos hq]
      rw [objGet_cons]
      simp
    · simp only [List.any_cons, hq, Bool.false_or] at h
      simp only [List.map_cons, if_neg hq]
      rw [objGet_cons, if_neg (by simp [hq])]
      exact ih h

theorem objGet_map_set_other (o : ReqCtx) (k v k' : String) (h : k' ≠ k) :
    objGet (o.map (fun p => if p.1 == k then (k, v) else p)) k'
      = objGet o k' := by
  have hkk : ¬((k == k') = true) := by simp; exact Ne.symm h
  induction o with
  | nil => rfl
  | cons q rest ih =>
    by_cases hq : q.1 == k
    · have hqk : q.1 = k := by simpa using hq
      simp only [List.map_cons, if_pos hq]
      rw [objGet_cons, objGet_cons]
      rw [if_neg (by simpa using hkk), if_neg (by rw [hqk]; exact hkk)]
      exact ih
    · simp only [List.map_cons, if_neg hq]
      rw [objGet_cons, objGet_cons]
      by_cases hq' : q.1 == k'
      · rw [if_pos hq', if_pos hq']
      · rw [if_neg (by simp [hq']), if_neg (by simp [hq'])]
        exact ih

theorem objGet_objSet_self (o : ReqCtx) (k v : String) :
    objGet (objSet o k v) k = some v := by
  unfold objSet
  by_cases h : o.any (fun p => p.1 == k)
  · rw [if_pos h]; exact objGet_map_set_self o k v h
  · rw [if_neg h]
    rw [objGet_append_of_none _ _ _
      (objGet_eq_none_of_any_false o k (by simp only [Bool.not_eq_true] at h; exact h))]
    rw [objGet_cons]
    simp

theorem objGet_objSet_other (o : ReqCtx) (k v k' : String) (h : k' ≠ k) :
    objGet (objSet o k v) k' = objGet o k' := by
  unfold objSet
  by_cases ha : o.any (fun p => p.1 == k)
  · rw [if_pos ha]; exact objGet_map_set_other o k v k' h
  · rw [if_neg ha]
    cases hv : objGet o k' with
    | some v' => exact objGet_append_of_some _ _ _ _ hv
    | none =>
      rw [objGet_append_of_none _ _ _ hv, objGet_cons]
      rw [if_neg (by simp; exact Ne.symm h)]
      rfl

theorem objSpread_nil (base : ReqCtx) : objSpread base [] = base := rfl

theorem objSpread_cons (base : ReqCtx) (q : String × String) (rest : ReqCtx) :
    objSpread base (q :: rest) = objSpread (objSet base q.1 q.2) rest := rfl

theorem objGet_objSpread_of_none (base extra : ReqCtx) (k : String)
    (h : objGet extra k = none) :
    objGet (objSpread base extra) k = objGet base k := by
  induction extra generalizing base with
  | nil => rfl
  | cons q rest ih =>
    rw [objGet_cons] at h
    by_cases hq : q.1 == k
    · rw [if_pos hq] at h; exact absurd h (by simp)
    · rw [if_neg (by simp [hq])] at h
      rw [objSpread_cons, ih _ h]
      exact objGet_objSet_other base q.1 q.2 k (by simpa using fun hh => hq (by simp [hh]))

theorem objGet_objSpread_of_some (base extra : ReqCtx) (k v : String)
    (hnd : (extra.map Prod.fst).Nodup) (h : objGet extra k = some v) :
    objGet (objSpread base extra) k = some v := by
  induction extra generalizing base with
  | nil => exact absurd h (by simp [objGet_nil])
  | cons q rest ih =>
    rw [objGet_cons] at h
    simp only [List.map_cons, List.nodup_cons] at hnd
    by_cases hq : q.1 == k
    · rw [if_pos hq] at h
      have hqk : q.1 = k := by simpa using hq
      have hrest : objGet rest k = none := by
        apply objGet_eq_none_of_any_false
        rw [List.any_eq_false]
        intro p hp
        simp only [Bool.not_eq_true, beq_eq_false_iff_ne]
        intro hc
        exact hnd.1 (by rw [← hqk] at hc; rw [← hc]; exact List.mem_map_of_mem Prod.fst hp)
      rw [objSpread_cons, objGet_objSpread_of_none _ _ _ hrest, hqk]
      rw [show v = q.2 from (Option.some_inj.mp h).symm]
      exact objGet_objSet_self base k q.2
    · rw [if_neg (by simp [hq])] at h
      rw [objSpread_cons]
      exact ih _ hnd.2 h

theorem storeGet_storePut (store : SessionStore) (key : String) (s : Session) :
    storeGet (storePut store key s) key = some s := by
  simp [storeGet, storePut, List.find?]

/-! Claim theorems. -/

/-- C1: for every resolveConnection call, when the lookup phase produced
no connection set at all or an empty one, the operation fails with the
NotFound error of status 404 carrying the message No SSO connection
found., regardless of which lookup path produced the set. -/
theorem resolveConnection_empty_notFound (opts : JacksonOption)
    (keyFromParts : String → String → String)
    (getByIndex : IndexNames → String → List Connection)
    (p : ResolveConnectionParams)
    (h : resolvedConnections keyFromParts getByIndex p = none
       ∨ resolvedConnections keyFromParts getByIndex p = some []) :
    resolveConnection opts keyFromParts getByIndex p
      = .error ⟨"No SSO connection found.", 404⟩ := by
  unfold resolveConnection
  rcases h with h | h <;> rw [h] <;> rfl

/-- Witness for C1: a tenant and product lookup that returns the empty
set yields the NotFound error. -/
theorem resolveConnection_empty_notFound_witness :
    resolveConnection ⟨"https://broker", "/idp/select", "/saml", "aud", none⟩
      (fun a b => a ++ ":" ++ b) (fun _ _ => [])
      ⟨AuthFlow.oauth, [], some "acme", some "crm", none, none, none⟩
      = .error ⟨"No SSO connection found.", 404⟩ :=
  resolveConnection_empty_notFound _ _ _ _ (Or.inr (by decide))

/-- C2: when tenant, product and entity id are all supplied,
resolveConnection continues with exactly the set fetched under the entity
id index; the tenant and product result is discarded. -/
theorem resolveConnection_entityId_supersedes (opts : JacksonOption)
    (keyFromParts : String → String → String)
    (getByIndex : IndexNames → String → List Connection)
    (p : ResolveConnectionParams)
    (_ht : truthy p.tenant = true) (_hp : truthy p.product = true)
    (he : truthy p.entityId = true) :
    resolveConnection opts keyFromParts getByIndex p
      = afterLookup opts p
          (some (getByIndex IndexNames.EntityID (p.entityId.getD ""))) := by
  unfold resolveConnection resolvedConnections
  simp [he]

/-- Witness for C2: with both lookups available, a non-empty tenant and
product set is discarded in favour of the empty entity id set, so the
call fails NotFound. -/
theorem resolveConnection_entityId_supersedes_witness :
    resolveConnection ⟨"https://broker", "/idp/select", "/saml", "aud", none⟩
      (fun a b => a ++ ":" ++ b)
      (fun i _ => match i with
        | IndexNames.TenantProduct =>
          [Connection.oidc ⟨"tp-client", ⟨none, none, some "cid", "sec"⟩⟩]
        | IndexNames.EntityID => [])
      ⟨AuthFlow.saml, [], some "acme", some "crm", some "idp-1", none, none⟩
      = afterLookup ⟨"https://broker", "/idp/select", "/saml", "aud", none⟩
          ⟨AuthFlow.saml, [], some "acme", some "crm", some "idp-1", none, none⟩
          (some []) :=
  resolveConnection_entityId_supersedes _ _ _ _ (by decide) (by decide) (by decide)

/-- C3: with a non-empty resolved set and a truthy idp hint,
resolveConnection returns the connection whose clientID equals the hint
exactly, and fails with the same NotFound error when no clientID equals
the hint even though connections exist. -/
theorem resolveConnection_idp_hint_filters (opts : JacksonOption)
    (keyFromParts : String → String → String)
    (getByIndex : IndexNames → String → List Connection)
    (p : ResolveConnectionParams) (hint : String) (cs : List Connection)
    (hres : resolvedConnections keyFromParts getByIndex p = some cs)
    (hcs : cs ≠ [])
    (hhint : p.idp_hint = some hint) (hne : hint ≠ "") :
    resolveConnection opts keyFromParts getByIndex p
      = match cs.find? (fun c => c.clientID == hint) with
        | none => .error ⟨"No SSO connection found.", 404⟩
        | some c => .ok (.connection c) := by
  unfold resolveConnection
  rw [hres]
  cases cs with
  | nil => exact absurd rfl hcs
  | cons c0 rest =>
    have htr : truthy p.idp_hint = true := by rw [hhint]; simp [truthy, hne]
    have hget : p.idp_hint.getD "" = hint := by rw [hhint]; rfl
    unfold afterLookup
    rw [hget, htr]
    cases hf : (c0 :: rest).find? (fun c => c.clientID == hint) <;>
      simp [hf, noSSOConnectionErrMessage]

/-- Witness for C3: among two connections, the hint c2 selects the second
connection. -/
theorem resolveConnection_idp_hint_filters_witness :
    resolveConnection ⟨"https://broker", "/idp/select", "/saml", "aud", none⟩
      (fun a b => a ++ ":" ++ b)
      (fun _ _ =>
        [Connection.saml ⟨"c1", ⟨⟨some "https://r1", none⟩⟩, none, none⟩,
         Connection.saml ⟨"c2", ⟨⟨some "https://r2", none⟩⟩, none, none⟩])
      ⟨AuthFlow.oauth, [], some "acme", some "crm", none, some "c2", none⟩
      = .ok (.connection
          (Connection.saml ⟨"c2", ⟨⟨some "https://r2", none⟩⟩, none, none⟩)) := by
  rw [resolveConnection_idp_hint_filters _ _ _ _ "c2"
    [Connection.saml ⟨"c1", ⟨⟨some "https://r1", none⟩⟩, none, none⟩,
     Connection.saml ⟨"c2", ⟨⟨some "https://r2", none⟩⟩, none, none⟩]
    (by decide) (by decide) rfl (by decide)]
  rfl

/-- C9: when the OIDC callback path of the broker configuration is not
set (undefined or empty), createOIDCRequest fails with the ConfigError
JacksonError of status 400, the session store is returned untouched, and
the outcome is the same whatever every collaborator would do, so none of
them is consulted and no session is created. -/
theorem createOIDCRequest_configError (opts : JacksonOption)
    (oidcIssuerResult : Except String Unit)
    (codeVerifierGen nonceGen sessionId : String)
    (codeChallengeOf : String → String)
    (authorizationUrlOf : AuthorizationUrlParams → String)
    (store : SessionStore) (connection : OIDCSSORecord)
    (requestParams : ReqCtx)
    (h : truthy opts.oidcPath = false) :
    createOIDCRequest opts oidcIssuerResult codeVerifierGen nonceGen
      sessionId codeChallengeOf authorizationUrlOf store connection
      requestParams
      = (store,
         .error ⟨"OpenID response handler path (oidcPath) is not set", 400⟩) := by
  unfold createOIDCRequest
  rw [h]
  rfl

/-- Witness for C9: an unset oidcPath yields the ConfigError and leaves
the store unchanged. -/
theorem createOIDCRequest_configError_witness :
    createOIDCRequest ⟨"https://broker", "/idp/select", "/saml", "aud", none⟩
      (Except.ok ()) "ver" "nonce" "sid" (fun s => s) (fun _ => "url")
      [] ⟨"oc", ⟨none, none, some "cid", "sec"⟩⟩ []
      = ([], .error ⟨"OpenID response handler path (oidcPath) is not set", 400⟩) :=
  createOIDCRequest_configError _ _ _ _ _ _ _ _ _ _ rfl

/-- C5 counterexample: calling createSession with a supplied but empty
oidcCodeVerifier stores a session without that field, because the source
tests the argument for truthiness, not for presence; so a supplied value
is not always contained in the stored record. -/
theorem createSession_empty_verifier_dropped :
    (storeGet (createSession [] "sid0" "rid0" [("k", "v")]
        (some "") (some "")).1 "sid0").map Session.oidcCodeVerifier
      = some none
    ∧ (some "" : Option String) ≠ none := by
  exact ⟨rfl, by simp⟩

/-- C5 amended: the token returned by createSession is the fixed relay
state prefix concatenated with the generated session identifier, and the
session store lookup under that identifier yields a record whose
requested field is exactly the supplied context, whose id is the supplied
request identifier, and which contains the oidcCodeVerifier and oidcNonce
fields exactly when they were supplied with a non-empty value (a supplied
empty string is dropped). -/
theorem createSession_roundtrip (store : SessionStore)
    (sessionId requestId : String) (requested : ReqCtx)
    (oidcCodeVerifier oidcNonce : Option String) :
    (createSession store sessionId requestId requested
        oidcCodeVerifier oidcNonce).2 = relayStatePrefix ++ sessionId
    ∧ (storeGet (createSession store sessionId requestId requested
          oidcCodeVerifier oidcNonce).1 sessionId).map Session.requested
        = some requested
    ∧ (storeGet (createSession store sessionId requestId requested
          oidcCodeVerifier oidcNonce).1 sessionId).map Session.id
        = some requestId
    ∧ (storeGet (createSession store sessionId requestId requested
          oidcCodeVerifier oidcNonce).1 sessionId).map Session.oidcCodeVerifier
        = some (if truthy oidcCodeVerifier then oidcCodeVerifier else none)
    ∧ (storeGet (createSession store sessionId requestId requested
          oidcCodeVerifier oidcNonce).1 sessionId).map Session.oidcNonce
        = some (if truthy oidcNonce then oidcNonce else none) := by
  refine ⟨rfl, ?_, ?_, ?_, ?_⟩ <;>
    simp [createSession, storeGet_storePut]

/-- C10: the session persisted by createSAMLRequest under the fresh
session identifier carries the caller context with the client_id
property overwritten by the clientID of the connection, the other caller
entries unchanged; this holds for both bindings. -/
theorem createSAMLRequest_session_client_id (opts : JacksonOption)
    (certificate : Certificate)
    (samlRequestBuilder : SamlRequestParams → SamlRequestOut)
    (deflateRaw : String → String) (base64 : String → String)
    (store : SessionStore) (sessionId : String)
    (connection : SAMLSSORecord) (requestParams : ReqCtx) :
    (storeGet (createSAMLRequest opts certificate samlRequestBuilder
        deflateRaw base64 store sessionId connection requestParams).1
        sessionId).map Session.requested
      = some (objSet requestParams "client_id" connection.clientID)
    ∧ objGet (objSet requestParams "client_id" connection.clientID)
        "client_id" = some connection.clientID
    ∧ ∀ k, k ≠ "client_id" →
        objGet (objSet requestParams "client_id" connection.clientID) k
          = objGet requestParams k := by
  refine ⟨?_, objGet_objSet_self _ _ _,
    fun k hk => objGet_objSet_other _ _ _ _ hk⟩
  unfold createSAMLRequest
  cases hpost : (chooseSsoEndpoint connection.idpMetadata.sso).2 <;>
    simp [hpost, createSession, storeGet_storePut]

/-- Witness for C10: a caller context already carrying a client_id entry
is stored with that entry overwritten by the clientID of the connection
and the other entry untouched. -/
theorem createSAMLRequest_session_client_id_witness :
    (storeGet (createSAMLRequest
        ⟨"https://broker", "/idp/select", "/saml", "aud", none⟩
        ⟨"priv", "pub"⟩ (fun _ => ⟨"rid", "req"⟩) (fun s => s) (fun s => s)
        [] "sid0" ⟨"c1", ⟨⟨some "https://r1", none⟩⟩, none, none⟩
        [("client_id", "caller"), ("state", "xyz")]).1
        "sid0").map Session.requested
      = some [("client_id", "c1"), ("state", "xyz")]
    ∧ objGet [("client_id", "c1"), ("state", "xyz")] "state" = some "xyz" := by
  have h := createSAMLRequest_session_client_id
    ⟨"https://broker", "/idp/select", "/saml", "aud", none⟩
    ⟨"priv", "pub"⟩ (fun _ => ⟨"rid", "req"⟩) (fun s => s) (fun s => s)
    [] "sid0" ⟨"c1", ⟨⟨some "https://r1", none⟩⟩, none, none⟩
    [("client_id", "caller"), ("state", "xyz")]
  exact ⟨h.1.trans (by decide), (h.2.2 "state" (by decide)).trans (by decide)⟩

/-- C4 counterexample: a connection whose metadata exposes both a
redirectUrl and a postUrl endpoint is sent through the redirect binding,
although a POST endpoint is exposed, because the source tests the
redirectUrl key first; this refutes the claimed equivalence between POST
binding and POST endpoint presence. -/
theorem createSAMLRequest_both_endpoints_redirect :
    ((⟨⟨some "https://idp/r", some "https://idp/p"⟩⟩ :
        IdpMetadata).sso.postUrl.isSome = true)
    ∧ (createSAMLRequest ⟨"https://broker", "/idp/select", "/saml", "aud", none⟩
        ⟨"priv", "pub"⟩ (fun _ => ⟨"rid", "req"⟩) (fun s => s) (fun s => s)
        [] "sid0"
        ⟨"c1", ⟨⟨some "https://idp/r", some "https://idp/p"⟩⟩, none, none⟩
        []).2.authorize_form = none := ⟨rfl, rfl⟩

/-- C4 amended: createSAMLRequest selects the POST binding exactly when
the connection metadata exposes a postUrl endpoint and no redirectUrl
endpoint, because the redirectUrl key is tested first; under the POST
binding the form carries hidden fields RelayState and the base64 of the
uncompressed request while redirect_url stays empty, and otherwise the
redirect binding carries RelayState and the base64 of the raw-deflated
request next to the redirectUrl destination. -/
theorem createSAMLRequest_binding_selection (opts : JacksonOption)
    (certificate : Certificate)
    (samlRequestBuilder : SamlRequestParams → SamlRequestOut)
    (deflateRaw : String → String) (base64 : String → String)
    (store : SessionStore) (sessionId : String)
    (connection : SAMLSSORecord) (requestParams : ReqCtx) :
    ((createSAMLRequest opts certificate samlRequestBuilder deflateRaw
        base64 store sessionId connection requestParams).2.authorize_form.isSome
      = (connection.idpMetadata.sso.redirectUrl.isNone
          && connection.idpMetadata.sso.postUrl.isSome))
    ∧ ((createSAMLRequest opts certificate samlRequestBuilder deflateRaw
        base64 store sessionId connection requestParams).2.redirect_url.isSome
      = !(connection.idpMetadata.sso.redirectUrl.isNone
          && connection.idpMetadata.sso.postUrl.isSome))
    ∧ (connection.idpMetadata.sso.redirectUrl = none →
        ∀ u, connection.idpMetadata.sso.postUrl = some u →
        (createSAMLRequest opts certificate samlRequestBuilder deflateRaw
            base64 store sessionId connection requestParams).2
          = { redirect_url := none
              authorize_form := some
                { url := some u
                  fields := [("RelayState", some ( relayStatePrefix ++ sessionId)),
                    ("SAMLRequest", some (base64 (samlRequestBuilder
                      (samlRequestArgsOf opts certificate connection
                        (some u))).request))] } })
    ∧ (∀ u, connection.idpMetadata.sso.redirectUrl = some u →
        (createSAMLRequest opts certificate samlRequestBuilder deflateRaw
            base64 store sessionId connection requestParams).2
          = { redirect_url := some
                { url := some u
                  params := [("RelayState", relayStatePrefix ++ sessionId),
                    ("SAMLRequest", base64 (deflateRaw (samlRequestBuilder
                      (samlRequestArgsOf opts certificate connection
                        (some u))).request))] }
              authorize_form := none }) := by
  refine ⟨?_, ?_, ?_, ?_⟩
  · cases hr : connection.idpMetadata.sso.redirectUrl with
    | some u => simp [createSAMLRequest, chooseSsoEndpoint, hr, createSession]
    | none =>
      cases hp : connection.idpMetadata.sso.postUrl with
      | some u => simp [createSAMLRequest, chooseSsoEndpoint, hr, hp, createSession]
      | none => simp [createSAMLRequest, chooseSsoEndpoint, hr, hp, createSession]
  · cases hr : connection.idpMetadata.sso.redirectUrl with
    | some u => simp [createSAMLRequest, chooseSsoEndpoint, hr, createSession]
    | none =>
      cases hp : connection.idpMetadata.sso.postUrl with
      | some u => simp [createSAMLRequest, chooseSsoEndpoint, hr, hp, createSession]
      | none => simp [createSAMLRequest, chooseSsoEndpoint, hr, hp, createSession]
  · intro hr u hp
    simp [createSAMLRequest, chooseSsoEndpoint, hr, hp, createSession]
  · intro u hr
    simp [createSAMLRequest, chooseSsoEndpoint, hr, createSession]

/-- Witness for C4: a connection exposing only a POST endpoint yields a
populated authorize form and an empty redirect URL, with the base64 of
the uncompressed request. -/
theorem createSAMLRequest_binding_selection_witness :
    (createSAMLRequest ⟨"https://broker", "/idp/select", "/saml", "aud", none⟩
        ⟨"priv", "pub"⟩ (fun _ => ⟨"rid", "req"⟩) (fun s => s) (fun s => s)
        [] "sid0" ⟨"c1", ⟨⟨none, some "https://idp/p"⟩⟩, none, none⟩
        []).2
      = { redirect_url := none
          authorize_form := some
            { url := some "https://idp/p"
              fields := [("RelayState", some "boxyhq_jackson_sid0"),
                         ("SAMLRequest", some "req")] } } := by
  have h := (createSAMLRequest_binding_selection
    ⟨"https://broker", "/idp/select", "/saml", "aud", none⟩
    ⟨"priv", "pub"⟩ (fun _ => ⟨"rid", "req"⟩) (fun s => s) (fun s => s)
    [] "sid0" ⟨"c1", ⟨⟨none, some "https://idp/p"⟩⟩, none, none⟩
    []).2.2.1 rfl "https://idp/p" rfl
  exact h.trans (by decide)

/-- C7: a SAML connection whose metadata exposes neither a redirectUrl
nor a postUrl endpoint does not make createSAMLRequest fail; the code
proceeds through the redirect binding with an undefined destination,
still creating a session and a request, contrary to the required
construction error. -/
theorem createSAMLRequest_no_endpoint_proceeds :
    (createSAMLRequest ⟨"https://broker", "/idp/select", "/saml", "aud", none⟩
        ⟨"priv", "pub"⟩ (fun _ => ⟨"rid", "req"⟩) (fun s => s) (fun s => s)
        [] "sid0" ⟨"c1", ⟨⟨none, none⟩⟩, none, none⟩ []).2
      = { redirect_url := some
            { url := none
              params := [("RelayState", "boxyhq_jackson_sid0"),
                         ("SAMLRequest", "req")] }
          authorize_form := none } := by decide

/-- C8 counterexample: a failure of the certificate provider, which the
source awaits outside its try block, propagates unmodified instead of
being replaced by the opaque 403 error. -/
theorem createSAMLResponse_cert_failure_not_wrapped :
    createSAMLResponse ⟨"https://broker", "/idp/select", "/saml", "aud", none⟩
        (.error (.raw "cert store down")) (fun _ => .ok "signed") (fun s => s)
        "profile" ⟨"rid", [], true, none, none⟩
      = .error (.raw "cert store down")
    ∧ SSOError.raw "cert store down"
        ≠ SSOError.jackson ⟨"Unable to validate SAML Response.", 403⟩ :=
  ⟨rfl, by decide⟩

/-- C8 amended: once the signing key pair has been obtained, every
failure of the response build pipeline collapses to the single opaque
JacksonError of status 403 with the fixed message; a failure while
obtaining the signing key pair instead propagates unmodified, because
that call sits outside the try block. -/
theorem createSAMLResponse_error_collapse (opts : JacksonOption)
    (certificate : Certificate)
    (samlLibCreateResponse : SAMLResponseParams → Except SSOError String)
    (base64 : String → String) (profile : String) (session : Session) :
    (∀ e, samlLibCreateResponse
        (samlResponseArgsOf opts certificate profile session) = .error e →
      createSAMLResponse opts (.ok certificate) samlLibCreateResponse
          base64 profile session
        = .error (.jackson ⟨"Unable to validate SAML Response.", 403⟩))
    ∧ (∀ e, createSAMLResponse opts (.error e) samlLibCreateResponse
          base64 profile session = .error e) := by
  constructor
  · intro e he
    have hred : createSAMLResponse opts (.ok certificate)
        samlLibCreateResponse base64 profile session
      = match samlLibCreateResponse
          (samlResponseArgsOf opts certificate profile session) with
        | .error _ =>
          .error (.jackson ⟨"Unable to validate SAML Response.", 403⟩)
        | .ok responseSigned =>
          .ok { url := objGet session.requested "acsUrl"
                fields := [("RelayState", objGet session.requested "relayState"),
                           ("SAMLResponse", some (base64 responseSigned))] } := rfl
    rw [hred, he]
  · intro e
    rfl

/-- Witness for C8: a failing response builder is replaced by the opaque
403 error. -/
theorem createSAMLResponse_error_collapse_witness :
    createSAMLResponse ⟨"https://broker", "/idp/select", "/saml", "aud", none⟩
        (.ok ⟨"priv", "pub"⟩) (fun _ => .error (.raw "boom")) (fun s => s)
        "profile" ⟨"rid", [], true, none, none⟩
      = .error (.jackson ⟨"Unable to validate SAML Response.", 403⟩) :=
  (createSAMLResponse_error_collapse _ _ _ _ _ _).1 (.raw "boom") rfl

/-- C6 counterexample: an original parameter named authFlow overrides the
sp-initiated marker, because the source spreads the original parameters
after the defaults; the discovery query of the returned redirect then
does not contain authFlow=sp-initiated. -/
theorem resolveConnection_sp_redirect_override :
    resolveConnection ⟨"https://broker", "/idp/select", "/saml", "aud", none⟩
      (fun a b => a ++ ":" ++ b)
      (fun _ _ =>
        [Connection.saml ⟨"c1", ⟨⟨some "https://r1", none⟩⟩, none, none⟩,
         Connection.saml ⟨"c2", ⟨⟨some "https://r2", none⟩⟩, none, none⟩])
      ⟨AuthFlow.saml, [("authFlow", "idp-list")], some "acme", some "crm",
        none, none, none⟩
      = .ok (.redirectUrl
          { base := "https://broker/idp/select"
            params := [("tenant", "acme"), ("product", "crm"),
                       ("authFlow", "idp-list"), ("samlFedAppId", "")] })
    ∧ objGet [("tenant", "acme"), ("product", "crm"),
              ("authFlow", "idp-list"), ("samlFedAppId", "")] "authFlow"
        ≠ some "sp-initiated" := by
  exact ⟨rfl, by decide⟩

/-- C6 amended: with more than one resolved connection, no idp hint, an
oauth or saml flow, and tenant and product present, resolveConnection
returns a redirect to the discovery endpoint whose parameters are the
defaults tenant, product, authFlow=sp-initiated and samlFedAppId merged
with all original parameters; every original parameter is echoed, and
each default is present with its value exactly when no original
parameter of the same name overrides it (so authFlow=sp-initiated holds
only in the absence of an original authFlow parameter). -/
theorem resolveConnection_sp_redirect (opts : JacksonOption)
    (keyFromParts : String → String → String)
    (getByIndex : IndexNames → String → List Connection)
    (p : ResolveConnectionParams) (cs : List Connection)
    (hres : resolvedConnections keyFromParts getByIndex p = some cs)
    (hlen : 1 < cs.length)
    (hhint : truthy p.idp_hint = false)
    (hflow : p.authFlow = AuthFlow.oauth ∨ p.authFlow = AuthFlow.saml)
    (ht : truthy p.tenant = true) (hp : truthy p.product = true)
    (hnd : (p.originalParams.map Prod.fst).Nodup) :
    resolveConnection opts keyFromParts getByIndex p
      = .ok (.redirectUrl
          { base := opts.externalUrl ++ opts.idpDiscoveryPath
            params := objSpread (spInitiatedDefaults p) p.originalParams })
    ∧ (∀ k v, objGet p.originalParams k = some v →
        objGet (objSpread (spInitiatedDefaults p) p.originalParams) k = some v)
    ∧ (objGet p.originalParams "tenant" = none →
        objGet (objSpread (spInitiatedDefaults p) p.originalParams) "tenant"
          = some (p.tenant.getD ""))
    ∧ (objGet p.originalParams "product" = none →
        objGet (objSpread (spInitiatedDefaults p) p.originalParams) "product"
          = some (p.product.getD ""))
    ∧ (objGet p.originalParams "authFlow" = none →
        objGet (objSpread (spInitiatedDefaults p) p.originalParams) "authFlow"
          = some "sp-initiated")
    ∧ (objGet p.originalParams "samlFedAppId" = none →
        objGet (objSpread (spInitiatedDefaults p) p.originalParams)
            "samlFedAppId" = some (p.samlFedAppId.getD "")) := by
  refine ⟨?_,
    fun k v hv => objGet_objSpread_of_some _ _ _ _ hnd hv,
    fun h0 => by rw [objGet_objSpread_of_none _ _ _ h0]; rfl,
    fun h0 => by rw [objGet_objSpread_of_none _ _ _ h0]; rfl,
    fun h0 => by rw [objGet_objSpread_of_none _ _ _ h0]; rfl,
    fun h0 => by rw [objGet_objSpread_of_none _ _ _ h0]; rfl⟩
  obtain ⟨c0, rest, rfl⟩ : ∃ c0 rest, cs = c0 :: rest := by
    cases cs with
    | nil => simp at hlen
    | cons a b => exact ⟨a, b, rfl⟩
  have hcond : ((p.authFlow == AuthFlow.oauth || p.authFlow == AuthFlow.saml)
      && (truthy p.tenant && truthy p.product)) = true := by
    rcases hflow with h | h <;> simp [h, ht, hp]
  unfold resolveConnection
  rw [hres]
  unfold afterLookup
  rw [hhint]
  simp only [Bool.false_eq_true, if_false]
  rw [if_pos hlen, if_pos hcond]

/-- Witness for C6: two SAML connections under acme and crm in a saml
flow with one original parameter produce the discovery redirect whose
query carries the defaults followed by the echoed parameter. -/
theorem resolveConnection_sp_redirect_witness :
    resolveConnection ⟨"https://broker", "/idp/select", "/saml", "aud", none⟩
      (fun a b => a ++ ":" ++ b)
      (fun _ _ =>
        [Connection.saml ⟨"c1", ⟨⟨some "https://r1", none⟩⟩, none, none⟩,
         Connection.saml ⟨"c2", ⟨⟨some "https://r2", none⟩⟩, none, none⟩])
      ⟨AuthFlow.saml, [("redirect_uri", "https://app/cb")], some "acme",
        some "crm", none, none, none⟩
      = .ok (.redirectUrl
          { base := "https://broker/idp/select"
            params := [("tenant", "acme"), ("product", "crm"),
                       ("authFlow", "sp-initiated"), ("samlFedAppId", ""),
                       ("redirect_uri", "https://app/cb")] }) := by
  rw [(resolveConnection_sp_redirect
    ⟨"https://broker", "/idp/select", "/saml", "aud", none⟩
    (fun a b => a ++ ":" ++ b)
    (fun _ _ =>
      [Connection.saml ⟨"c1", ⟨⟨some "https://r1", none⟩⟩, none, none⟩,
       Connection.saml ⟨"c2", ⟨⟨some "https://r2", none⟩⟩, none, none⟩])
    ⟨AuthFlow.saml, [("redirect_uri", "https://app/cb")], some "acme",
      some "crm", none, none, none⟩
    [Connection.saml ⟨"c1", ⟨⟨some "https://r1", none⟩⟩, none, none⟩,
     Connection.saml ⟨"c2", ⟨⟨some "https://r2", none⟩⟩, none, none⟩]
    (by decide) (by decide) (by decide) (Or.inr rfl) (by decide) (by decide)
    (by decide)).1]
  rfl
